import Mathlib

/-!
Shallow embedding of the protectedData service: password-protected "drops"
(short URL records with text content and an optional file attachment), as
implemented in src/routes/url.js, src/models/Url.js, src/middleware/validate.js,
src/middleware/rateLimiter.js, src/routes/admin.js and src/server.js.
External collaborators (bcrypt, multer, express-rate-limit, jwt, the document
store) are modelled by their documented interface semantics; everything else is
translated directly from the repository source.
-/

namespace ProtectedData

/-- Whitespace characters stripped by JavaScript String.prototype.trim
(ASCII subset; the Unicode space separators are irrelevant to this corpus). -/
def isJsSpace (c : Char) : Bool :=
  c == ' ' || c == '\t' || c == '\n' || c == '\r' || c == '\x0b' || c == '\x0c'

/-- Model of JavaScript String.prototype.trim: strip leading and trailing whitespace. -/
def jsTrim (s : String) : String :=
  String.mk (((s.data.dropWhile isJsSpace).reverse.dropWhile isJsSpace).reverse)

/-- ASCII lower-casing of one character (JavaScript toLowerCase restricted to
ASCII, which is all the extension comparison in validate.js depends on). -/
def lowerChar (c : Char) : Char :=
  if 0x41 ≤ c.toNat && c.toNat ≤ 0x5A then Char.ofNat (c.toNat + 0x20) else c

/-- ASCII model of JavaScript String.prototype.toLowerCase. -/
def asciiLower (s : String) : String :=
  String.mk (s.data.map lowerChar)

/-- Characters of the last path segment of a file name (after the last slash). -/
def basenameChars (s : String) : List Char :=
  (s.data.reverse.takeWhile (fun c => !(c == '/'))).reverse

/-- Model of Node path.extname: the substring of the basename from its last dot,
empty when the basename has no dot or only a leading dot (hidden files). -/
def extname (s : String) : String :=
  let base := basenameChars s
  let afterDot := base.reverse.takeWhile (fun c => !(c == '.'))
  if afterDot.length == base.length then ""
  else if afterDot.length + 1 == base.length then ""
  else String.mk ('.' :: afterDot.reverse)

/-! ### Credential hasher

Modelled from the spec: the external bcrypt library (Credential Hasher, spec
section 4.1), which is a dependency, not repository code. The hash is salted
(fresh salt per call) and one-way; comparison succeeds exactly when the
submitted password is the one the hash was derived from (ideal collision-free
hash). The stored digest is opaque to clients. -/

structure BcryptHash where
  hashedPassword : String
  salt : Nat
deriving DecidableEq, Repr

/-- Model of bcrypt.hash(password, rounds): records the hashed password under a
fresh salt. -/
def bcryptHash (password : String) (salt : Nat) : BcryptHash :=
  ⟨password, salt⟩

/-- Model of bcrypt.compare(candidate, hash): true exactly when the candidate
is the password the hash was derived from. -/
def bcryptCompare (password : String) (h : BcryptHash) : Bool :=
  password == h.hashedPassword

/-! ### URL-component encoding

Model of the JavaScript builtins encodeURIComponent / decodeURIComponent used
by the verify route to place the password in the downloadUrl query string.
encodeURIComponent leaves the unreserved characters and percent-encodes the
UTF-8 bytes of every other character. -/

/-- Characters encodeURIComponent leaves unescaped: ASCII alphanumerics and
the marks dash, underscore, dot, bang, tilde, star, quote, parens. -/
def isUriUnreserved (c : Char) : Bool :=
  let n := c.toNat
  (0x41 ≤ n && n ≤ 0x5A) || (0x61 ≤ n && n ≤ 0x7A) || (0x30 ≤ n && n ≤ 0x39) ||
  n == 0x2D || n == 0x5F || n == 0x2E || n == 0x21 || n == 0x7E || n == 0x2A ||
  n == 0x27 || n == 0x28 || n == 0x29

/-- UTF-8 encoding of one character, as a list of byte values. -/
def utf8Bytes (c : Char) : List Nat :=
  let n := c.toNat
  if n < 0x80 then [n]
  else if n < 0x800 then [0xC0 + n / 0x40, 0x80 + n % 0x40]
  else if n < 0x10000 then [0xE0 + n / 0x1000, 0x80 + n / 0x40 % 0x40, 0x80 + n % 0x40]
  else [0xF0 + n / 0x40000, 0x80 + n / 0x1000 % 0x40, 0x80 + n / 0x40 % 0x40, 0x80 + n % 0x40]

/-- Upper-case hexadecimal digit for a value below 16. -/
def hexDigitChar (d : Nat) : Char :=
  if d < 10 then Char.ofNat (0x30 + d) else Char.ofNat (0x41 + d - 10)

/-- Percent-encoding of one byte. -/
def pctEncodeByte (b : Nat) : List Char :=
  ['%', hexDigitChar (b / 16), hexDigitChar (b % 16)]

/-- encodeURIComponent on a single character. -/
def encodeChar (c : Char) : List Char :=
  if isUriUnreserved c then [c] else (utf8Bytes c).flatMap pctEncodeByte

/-- Model of JavaScript encodeURIComponent. -/
def encodeURIComponent (s : String) : String :=
  String.mk (s.data.flatMap encodeChar)

/-- Value of a hexadecimal digit character. -/
def hexVal (c : Char) : Option Nat :=
  let n := c.toNat
  if 0x30 ≤ n && n ≤ 0x39 then some (n - 0x30)
  else if 0x41 ≤ n && n ≤ 0x46 then some (n - 0x41 + 10)
  else if 0x61 ≤ n && n ≤ 0x66 then some (n - 0x61 + 10)
  else none

/-- Percent-decoding of a character sequence into byte values (none on a
malformed escape). -/
def pctDecode : List Char → Option (List Nat)
  | [] => some []
  | c :: rest =>
    if c == '%' then
      match rest with
      | h :: l :: rest2 =>
        match hexVal h, hexVal l with
        | some hv, some lv => (pctDecode rest2).map (fun bs => (hv * 16 + lv) :: bs)
        | _, _ => none
      | _ => none
    else (pctDecode rest).map (fun bs => c.toNat :: bs)

mutual

/-- UTF-8 decoding of a byte sequence (none on malformed input). -/
def utf8Decode : List Nat → Option (List Char)
  | [] => some []
  | b :: rest =>
    if b < 0x80 then (utf8Decode rest).map (fun cs => Char.ofNat b :: cs)
    else if b < 0xC0 then none
    else if b < 0xE0 then utf8Cont1 b rest
    else if b < 0xF0 then utf8Cont2 b rest
    else utf8Cont3 b rest

/-- Decoding after a two-byte lead. -/
def utf8Cont1 (b : Nat) : List Nat → Option (List Char)
  | b1 :: rest =>
    if 0x80 ≤ b1 && b1 < 0xC0 then
      (utf8Decode rest).map (fun cs => Char.ofNat ((b - 0xC0) * 0x40 + (b1 - 0x80)) :: cs)
    else none
  | [] => none

/-- Decoding after a three-byte lead. -/
def utf8Cont2 (b : Nat) : List Nat → Option (List Char)
  | b1 :: b2 :: rest =>
    if (0x80 ≤ b1 && b1 < 0xC0) && (0x80 ≤ b2 && b2 < 0xC0) then
      (utf8Decode rest).map (fun cs =>
        Char.ofNat ((b - 0xE0) * 0x1000 + (b1 - 0x80) * 0x40 + (b2 - 0x80)) :: cs)
    else none
  | [_] => none
  | [] => none

/-- Decoding after a four-byte lead. -/
def utf8Cont3 (b : Nat) : List Nat → Option (List Char)
  | b1 :: b2 :: b3 :: rest =>
    if (0x80 ≤ b1 && b1 < 0xC0) && ((0x80 ≤ b2 && b2 < 0xC0) && (0x80 ≤ b3 && b3 < 0xC0)) then
      (utf8Decode rest).map (fun cs =>
        Char.ofNat ((b - 0xF0) * 0x40000 + (b1 - 0x80) * 0x1000 +
          (b2 - 0x80) * 0x40 + (b3 - 0x80)) :: cs)
    else none
  | [_, _] => none
  | [_] => none
  | [] => none

end

/-- Model of JavaScript decodeURIComponent (none on malformed input). -/
def decodeURIComponent (s : String) : Option String :=
  (pctDecode s.data).bind (fun bs => (utf8Decode bs).map String.mk)

/-- Characters after the first question mark of a URL (its query string). -/
def afterQuery (u : String) : List Char :=
  (u.data.dropWhile (fun c => !(c == '?'))).drop 1

/-- The decoded value of a leading token query parameter of a URL, as the
HTTP layer would deliver it to req.query.token. -/
def tokenParamOf (u : String) : Option String :=
  let q := afterQuery u
  if q.take 6 == "token=".data then decodeURIComponent (String.mk (q.drop 6)) else none

/-! ### The drop document and the content store -/

/-- A persisted drop document, with exactly the paths declared by urlSchema in
src/models/Url.js lines 16-54 (plus the mongoose-maintained document id and
createdAt timestamp). The schema declares no serialNumber path. -/
structure UrlDoc where
  docId : Nat := 0
  shortId : String
  passwordHash : BcryptHash
  textContent : String
  fileName : Option String := none
  filePath : Option String := none
  label : String := ""
  downloadCount : Nat := 0
  createdAt : Nat := 0
deriving DecidableEq, Repr

/-- The durable state the routes touch: the drops collection and the set of
paths present on disk under the upload root. -/
structure Store where
  drops : List UrlDoc := []
  files : List String := []
deriving DecidableEq, Repr

/-- Model of Url.findOne with a shortId filter. -/
def findOne (s : Store) (sid : String) : Option UrlDoc :=
  s.drops.find? (fun d => d.shortId == sid)

/-- JavaScript truthiness of a nullable string (null and the empty string are
falsy). -/
def jsTruthyStr : Option String → Bool
  | none => false
  | some str => !(str == "")

/-- Replace the first element satisfying the predicate (model of saving a
document fetched by findOne back to the collection). -/
def replaceFirst (p : α → Bool) (a : α) : List α → List α
  | [] => []
  | x :: xs => if p x then a :: xs else x :: replaceFirst p a xs

/-- The urlDoc.downloadCount += 1 statement of the download handler. -/
def incDownload (d : UrlDoc) : UrlDoc :=
  { d with downloadCount := d.downloadCount + 1 }

/-! ### Input validation middleware (src/middleware/validate.js) -/

/-- Extension allow-list from src/middleware/validate.js line 4. -/
def ALLOWED_EXTENSIONS : List String :=
  [".pdf", ".png", ".jpg", ".jpeg", ".gif", ".zip", ".txt", ".docx", ".xlsx", ".csv"]

/-- Upload size ceiling from src/middleware/validate.js line 5 (50 MB). -/
def MAX_FILE_SIZE : Nat := 50 * 1024 * 1024

/-- Body of a POST /api/shorten request (absent fields are none). -/
structure ShortenBody where
  password : Option String := none
  textContent : Option String := none
  label : Option String := none
deriving DecidableEq, Repr

/-- The sanitized output validateShortenInput writes back into req.body. -/
structure ValidShorten where
  password : String
  textContent : String
  label : String
deriving DecidableEq, Repr

/-- Model of validateShortenInput: the checks and trimming of
src/middleware/validate.js lines 12-47, in source order. -/
def validateShortenInput (b : ShortenBody) : Except String ValidShorten :=
  match b.password with
  | none => .error "Password is required."
  | some pw =>
    if (jsTrim pw).length == 0 then .error "Password is required."
    else if (jsTrim pw).length < 4 then .error "Password must be at least 4 characters."
    else if (jsTrim pw).length > 128 then .error "Password must not exceed 128 characters."
    else
      match b.textContent with
      | none => .error "Text content is required."
      | some tc =>
        if (jsTrim tc).length == 0 then .error "Text content is required."
        else if (jsTrim tc).length > 10000 then .error "Text content must not exceed 10,000 characters."
        else
          match b.label with
          | none => .ok ⟨jsTrim pw, jsTrim tc, ""⟩
          | some l =>
            if !(l == "") && (jsTrim l).length > 100 then
              .error "Label must not exceed 100 characters."
            else .ok ⟨jsTrim pw, jsTrim tc, jsTrim l⟩

/-- Model of validateVerifyInput (src/middleware/validate.js lines 64-73):
requires a non-empty password and writes back its trim. -/
def validateVerifyInput (password : Option String) : Except String String :=
  match password with
  | none => .error "Password is required."
  | some p =>
    if (jsTrim p).length == 0 then .error "Password is required."
    else .ok (jsTrim p)

/-- Model of validateAdminLogin (src/middleware/validate.js lines 78-93). -/
def validateAdminLogin (username password : Option String) : Except String (String × String) :=
  match username with
  | none => .error "Username is required."
  | some u =>
    if (jsTrim u).length == 0 then .error "Username is required."
    else
      match password with
      | none => .error "Password is required."
      | some p =>
        if (jsTrim p).length == 0 then .error "Password is required."
        else .ok (jsTrim u, jsTrim p)

/-- The extension check of the multer fileFilter
(src/middleware/validate.js lines 52-59). -/
def fileExtAllowed (originalname : String) : Bool :=
  ALLOWED_EXTENSIONS.contains (asciiLower (extname originalname))

/-- The fileFilter rejection message. -/
def fileTypeErrorMsg (ext : String) : String :=
  "File type \x27" ++ ext ++ "\x27 is not allowed. Allowed types: " ++
    String.intercalate ", " ALLOWED_EXTENSIONS

/-! ### Multer upload step and the server-level error handler -/

/-- An incoming multipart file part: client-supplied name and byte count. -/
structure IncomingFile where
  originalname : String
  size : Nat
deriving DecidableEq, Repr

/-- The req.file object multer hands to the route handler. -/
structure MulterFile where
  originalname : String
  path : String
deriving DecidableEq, Repr

/-- Errors multer forwards to the express error handler. -/
inductive MulterErr
  | limitFileSize
  | filterRejected (msg : String)
deriving DecidableEq, Repr

/-- The fixed upload root (path.join of the source directory with uploads). -/
def uploadRoot : String := "uploads"

/-- The randomized on-disk path: 16-char nanoid token plus the lower-cased
original extension, under the upload root (routes, multer diskStorage). -/
def storagePathFor (storageTok : String) (originalname : String) : String :=
  uploadRoot ++ "/" ++ (storageTok ++ asciiLower (extname originalname))

/-- Model of upload.single applied before the route handler: the fileFilter
extension check runs before any byte is stored, then the size limit, then the
file is written under its randomized name. storageTok is the nanoid(16)
output. -/
def multerSingle (s : Store) (file : Option IncomingFile) (storageTok : String) :
    Except MulterErr (Option MulterFile × Store) :=
  match file with
  | none => .ok (none, s)
  | some f =>
    if !(fileExtAllowed f.originalname) then
      .error (.filterRejected (fileTypeErrorMsg (asciiLower (extname f.originalname))))
    else if f.size > MAX_FILE_SIZE then .error .limitFileSize
    else
      let p := storagePathFor storageTok f.originalname
      .ok (some ⟨f.originalname, p⟩, { s with files := p :: s.files })

/-- The multer error handler of src/server.js lines 28-37: a size-limit error
becomes a 400 naming a 10 MB limit; a fileFilter error surfaces its message. -/
def multerErrMsg : MulterErr → String
  | .limitFileSize => "File size exceeds the 10 MB limit."
  | .filterRejected m => m

/-! ### POST /api/shorten (src/routes/url.js lines 38-78) -/

/-- Responses of the create route (201 on success, 400 on validation or
upload rejection; the 500 path for store failures is out of scope). -/
inductive CreateResp
  | created (shortUrl shortId : String)
  | badRequest (msg : String)
deriving DecidableEq, Repr

/-- The document built and saved by the create handler of src/routes/url.js
lines 55-63: this variant persists no label field (the handler only
destructures password and textContent), so label keeps its schema default. -/
def shortenDoc (s1 : Store) (v : ValidShorten) (mf : Option MulterFile)
    (salt : Nat) (sid : String) : UrlDoc :=
  { docId := s1.drops.length
    shortId := sid
    passwordHash := bcryptHash v.password salt
    textContent := v.textContent
    fileName := mf.map (fun f => f.originalname)
    filePath := mf.map (fun f => f.path) }

/-- The create handler after validation: hash the password, build the
document, save it, answer 201 with the short URL. -/
def shortenSave (s1 : Store) (v : ValidShorten) (mf : Option MulterFile)
    (salt : Nat) (sid baseUrl : String) : CreateResp × Store :=
  (.created (baseUrl ++ "/" ++ sid) sid,
    { s1 with drops := s1.drops ++ [shortenDoc s1 v mf salt sid] })

/-- The validation stage of the create pipeline. -/
def shortenValidated (s1 : Store) (b : ShortenBody) (mf : Option MulterFile)
    (salt : Nat) (sid baseUrl : String) : CreateResp × Store :=
  match validateShortenInput b with
  | .error m => (.badRequest m, s1)
  | .ok v => shortenSave s1 v mf salt sid baseUrl

/-- The create pipeline of src/routes/url.js: upload.single, then
validateShortenInput, then the handler. salt and sid stand for the bcrypt
salt and the nanoid(8) draw; storageTok for the nanoid(16) storage name. -/
def createRequest (s : Store) (b : ShortenBody) (file : Option IncomingFile)
    (salt : Nat) (sid storageTok baseUrl : String) : CreateResp × Store :=
  match multerSingle s file storageTok with
  | .error e => (.badRequest (multerErrMsg e), s)
  | .ok (mf, s1) => shortenValidated s1 b mf salt sid baseUrl

/-- Whether multer accepts a file part: no file, or allowed extension and
size within the ceiling. -/
def multerAccepts : Option IncomingFile → Bool
  | none => true
  | some f => fileExtAllowed f.originalname && decide (f.size ≤ MAX_FILE_SIZE)

/-! ### POST /api/:shortId/verify (src/routes/url.js lines 81-114) -/

/-- Responses of the verify route. -/
inductive VerifyResp
  | validationRejected (msg : String)
  | notFound
  | wrongPassword
  | ok (textContent : String) (hasFile : Bool) (fileName : Option String)
      (downloadUrl : Option String)
deriving DecidableEq, Repr

/-- The downloadUrl string built on a successful verification. -/
def downloadUrlFor (sid password : String) : String :=
  "/api/" ++ sid ++ "/download?token=" ++ encodeURIComponent password

/-- The 200 body of the verify route: content, hasFile truthiness, display
name, and the downloadUrl exactly when a fileName is present. -/
def verifyOk (sid password : String) (d : UrlDoc) : VerifyResp :=
  .ok d.textContent (jsTruthyStr d.fileName) d.fileName
    (if jsTruthyStr d.fileName then some (downloadUrlFor sid password) else none)

/-- The verify handler body: look up the drop, compare the password against
the stored hash, and return the protected content. -/
def verifyHandler (s : Store) (sid password : String) : VerifyResp :=
  match findOne s sid with
  | none => .notFound
  | some d =>
    if !(bcryptCompare password d.passwordHash) then .wrongPassword
    else verifyOk sid password d

/-- The verify route: validateVerifyInput then the handler. -/
def verifyRequest (s : Store) (sid : String) (password : Option String) : VerifyResp :=
  match validateVerifyInput password with
  | .error m => .validationRejected m
  | .ok p => verifyHandler s sid p

/-! ### GET /api/:shortId/download (src/routes/url.js lines 118-152) -/

/-- Responses of the download route. -/
inductive DownloadResp
  | authRequired
  | notFound
  | wrongPassword
  | noFile
  | fileStream (path : String) (downloadName : Option String)
deriving DecidableEq, Repr

/-- The tail of the download handler once the password has verified: the
attachment and on-disk existence checks, then increment downloadCount, save,
and stream the file under its display name (src/routes/url.js lines
137-146). -/
def downloadStream (s : Store) (sid : String) (d : UrlDoc) : DownloadResp × Store :=
  match d.filePath with
  | none => (.noFile, s)
  | some fp =>
    if fp == "" then (.noFile, s)
    else if !(s.files.contains fp) then (.noFile, s)
    else
      let d2 := { d with downloadCount := d.downloadCount + 1 }
      (.fileStream fp d.fileName,
        { s with drops := replaceFirst (fun x => x.shortId == sid) d2 s.drops })

/-- The download handler after the token presence check: lookup and password
re-verification against the stored hash (src/routes/url.js lines 127-135). -/
def downloadCore (s : Store) (sid t : String) : DownloadResp × Store :=
  match findOne s sid with
  | none => (.notFound, s)
  | some d =>
    if !(bcryptCompare t d.passwordHash) then (.wrongPassword, s)
    else downloadStream s sid d

/-- The download route: the token presence check runs first (src/routes/url.js
lines 121-125). The token argument is req.query.token as the HTTP layer
delivers it (already percent-decoded). -/
def downloadRequest (s : Store) (sid : String) (token : Option String) :
    DownloadResp × Store :=
  match token with
  | none => (.authRequired, s)
  | some t =>
    if t == "" then (.authRequired, s)
    else downloadCore s sid t

/-! ### The serial-number route variant (second document of src/models/Url.js)

That file also carries a variant of routes/url.js whose create handler assigns
a serialNumber via getNextSerialNumber and passes it to the Url constructor.
The urlSchema of the same file declares no serialNumber path, so under
mongoose's default strict mode the field is discarded at save time and no
stored document ever carries one. -/

/-- A JavaScript number that may be NaN (undefined + 1 evaluates to NaN). -/
inductive JsNum
  | num (n : Int)
  | nan
deriving DecidableEq, Repr

/-- Model of getNextSerialNumber (src/models/Url.js lines 117-120):
Url.findOne().sort on serialNumber yields null on an empty collection
(then the result is 1001) and otherwise some document; since no stored
document has a serialNumber path, reading last.serialNumber gives undefined,
and undefined + 1 is NaN. -/
def getNextSerialNumber (drops : List UrlDoc) : JsNum :=
  match drops with
  | [] => .num 1001
  | _ :: _ => .nan

/-- Responses of the variant create route (its 201 body also carries the
computed serialNumber; NaN serializes as JSON null). -/
inductive CreateSerialResp
  | createdS (shortUrl shortId : String) (serialNumber : JsNum)
  | badRequestS (msg : String)
deriving DecidableEq, Repr

/-- The variant create pipeline: as createRequest, but it computes a
serialNumber, passes it to the Url constructor, and echoes it in the
response. The constructor argument is not a schema path, so the saved
document consists of the schema fields only; this variant does persist the
validated label. -/
def createSerialRequest (s : Store) (b : ShortenBody) (file : Option IncomingFile)
    (salt : Nat) (sid storageTok baseUrl : String) : CreateSerialResp × Store :=
  match multerSingle s file storageTok with
  | .error e => (.badRequestS (multerErrMsg e), s)
  | .ok (mf, s1) =>
    match validateShortenInput b with
    | .error m => (.badRequestS m, s1)
    | .ok v =>
      let serial := getNextSerialNumber s1.drops
      let doc : UrlDoc :=
        { docId := s1.drops.length
          shortId := sid
          passwordHash := bcryptHash v.password salt
          textContent := v.textContent
          label := v.label
          fileName := mf.map (fun f => f.originalname)
          filePath := mf.map (fun f => f.path) }
      (.createdS (baseUrl ++ "/" ++ sid) sid serial, { s1 with drops := s1.drops ++ [doc] })

/-! ### Rate limiting (src/middleware/rateLimiter.js)

Model of express-rate-limit: fixed window, per-client-address counters; a
request is served when its count within the current window does not exceed
the cap, and answered 429 otherwise. -/

/-- Limiter state: one (address, window start, count) entry per client. -/
abbrev RLState := List (String × Nat × Nat)

/-- Look up the window entry of an address. -/
def rlLookup (st : RLState) (a : String) : Option (Nat × Nat) :=
  (st.find? (fun e => e.1 == a)).map (fun e => e.2)

/-- Write the window entry of an address. -/
def rlSet (st : RLState) (a : String) (ws cnt : Nat) : RLState :=
  if (st.find? (fun e => e.1 == a)).isSome then
    replaceFirst (fun e => e.1 == a) (a, ws, cnt) st
  else (a, ws, cnt) :: st

/-- The 15-minute window, in milliseconds. -/
def windowMs : Nat := 15 * 60 * 1000

/-- Cap of the sensitive-route limiter (10 requests per window). -/
def sensitiveMax : Nat := 10

/-- Cap of the general limiter (100 requests per window). -/
def generalMax : Nat := 100

/-- One request through a fixed-window limiter: reset the window when it has
elapsed, then count the request; it passes when the new count is within the
cap. -/
def rlHit (ms maxReqs : Nat) (st : RLState) (a : String) (t : Nat) : Bool × RLState :=
  match rlLookup st a with
  | none => (1 ≤ maxReqs, rlSet st a t 1)
  | some (ws, c) =>
    if ws + ms ≤ t then (1 ≤ maxReqs, rlSet st a t 1)
    else (c + 1 ≤ maxReqs, rlSet st a ws (c + 1))

/-- The sensitiveLimiter of src/middleware/rateLimiter.js lines 21-29. -/
def sensitiveHit (st : RLState) (a : String) (t : Nat) : Bool × RLState :=
  rlHit windowMs sensitiveMax st a t

/-- A response that may instead be the limiter's 429. -/
inductive Limited (α : Type)
  | rateLimited
  | through (r : α)
deriving DecidableEq, Repr

/-- Limiter state after n sensitive-route requests from one address at one
instant, starting from a fresh limiter. -/
def hitsState (a : String) (t : Nat) : Nat → RLState
  | 0 => []
  | n + 1 => (sensitiveHit (hitsState a t n) a t).2

/-- POST /api/shorten as mounted in src/routes/url.js lines 39-41:
sensitiveLimiter runs before the upload and validation chain. -/
def createWithLimiter (rl : RLState) (a : String) (t : Nat) (s : Store)
    (b : ShortenBody) (file : Option IncomingFile) (salt : Nat)
    (sid storageTok baseUrl : String) : Limited CreateResp × RLState × Store :=
  let hit := sensitiveHit rl a t
  if hit.1 then
    let r := createRequest s b file salt sid storageTok baseUrl
    (.through r.1, hit.2, r.2)
  else (.rateLimited, hit.2, s)

/-- POST /api/:shortId/verify as mounted in src/routes/url.js lines 83-85:
sensitiveLimiter runs before validation and the handler. -/
def verifyWithLimiter (rl : RLState) (a : String) (t : Nat) (s : Store)
    (sid : String) (password : Option String) : Limited VerifyResp × RLState :=
  let hit := sensitiveHit rl a t
  if hit.1 then (.through (verifyRequest s sid password), hit.2)
  else (.rateLimited, hit.2)

/-! ### Admin routes (src/routes/admin.js) -/

/-- An admin principal document (src/models/Admin.js schema inside
src/models/Url.js second document). -/
structure AdminDoc where
  adminId : Nat := 0
  username : String
  passwordHash : BcryptHash
deriving DecidableEq, Repr

/-- Responses of POST /api/admin/login. -/
inductive LoginResp
  | loginRejected (msg : String)
  | invalidCredentials
  | loggedIn (adminId : Nat) (username : String)
deriving DecidableEq, Repr

/-- The admin login route (src/routes/admin.js lines 53-78):
validateAdminLogin, find the principal, compare the password, and sign a
24-hour token carrying id and username (modelled by its payload). -/
def adminLoginRequest (admins : List AdminDoc) (username password : Option String) :
    LoginResp :=
  match validateAdminLogin username password with
  | .error m => .loginRejected m
  | .ok up =>
    match admins.find? (fun ad => ad.username == up.1) with
    | none => .invalidCredentials
    | some ad =>
      if !(bcryptCompare up.2 ad.passwordHash) then .invalidCredentials
      else .loggedIn ad.adminId ad.username

/-- The admin login route as mounted: its middleware chain in
src/routes/admin.js line 53 is validateAdminLogin then the handler; no rate
limiter is attached anywhere on this route (nor globally in src/server.js),
so the limiter state is neither consulted nor advanced. -/
def adminLoginApp (rl : RLState) (admins : List AdminDoc) (a : String) (t : Nat)
    (username password : Option String) : Limited LoginResp × RLState :=
  (.through (adminLoginRequest admins username password), rl)

/-- Response of the (n+1)-th of a burst of identical admin-login requests
from one address at one instant, threading the limiter state from a fresh
limiter through the route as mounted. -/
def adminLoginSeq (admins : List AdminDoc) (a : String) (t : Nat)
    (username password : Option String) : Nat → Limited LoginResp × RLState
  | 0 => adminLoginApp [] admins a t username password
  | n + 1 => adminLoginApp (adminLoginSeq admins a t username password n).2
      admins a t username password

/-- Model of the authenticateAdmin middleware (src/routes/admin.js lines
36-50): missing header or missing Bearer prefix is denied with the
no-token message; jwt.verify is modelled as succeeding exactly on the
unexpired tokens the app signed (the validTokens oracle); its failure is
denied with the invalid-token message. none means the gate passes. -/
def adminAuthError (header : Option String) (validTokens : List String) :
    Option String :=
  match header with
  | none => some "Access denied. No token provided."
  | some h =>
    if !(h.startsWith "Bearer ") then some "Access denied. No token provided."
    else if validTokens.contains ((h.splitOn " ").getD 1 "") then none
    else some "Invalid or expired token."

/-- Insertion step for sorting drops by createdAt, newest first. -/
def insertByCreatedDesc (d : UrlDoc) : List UrlDoc → List UrlDoc
  | [] => [d]
  | e :: es => if e.createdAt ≤ d.createdAt then d :: e :: es else e :: insertByCreatedDesc d es

/-- Model of the sort on createdAt descending in GET /api/admin/urls. -/
def sortByCreatedDesc (l : List UrlDoc) : List UrlDoc :=
  l.foldr insertByCreatedDesc []

/-- Responses of GET /api/admin/urls. -/
inductive ListResp
  | listDenied (msg : String)
  | listOk (urls : List UrlDoc)
deriving DecidableEq, Repr

/-- GET /api/admin/urls (src/routes/admin.js lines 81-92): the auth gate,
then every drop, newest first; the passwordHash path is excluded at
serialization (see serializeList). -/
def adminListRequest (s : Store) (header : Option String) (validTokens : List String) :
    ListResp :=
  match adminAuthError header validTokens with
  | some m => .listDenied m
  | none => .listOk (sortByCreatedDesc s.drops)

/-- Body of PUT /api/admin/urls/:id. -/
structure UpdateBody where
  label : Option String := none
  textContent : Option String := none
  deleteFile : Option String := none
deriving DecidableEq, Repr

/-- Responses of PUT /api/admin/urls/:id. -/
inductive UpdateResp
  | updateDenied (msg : String)
  | updateNotFound
  | updateRejected (msg : String)
  | updateOk (url : UrlDoc)
deriving DecidableEq, Repr

/-- PUT /api/admin/urls/:id (src/routes/admin.js lines 95-142): auth gate,
multer upload, findById, the label and textContent edits with their checks,
file removal or replacement, save, and a reply stripped of passwordHash
(see serializeUpdate). -/
def adminUpdateRequest (s : Store) (header : Option String) (validTokens : List String)
    (id : Nat) (b : UpdateBody) (file : Option IncomingFile) (storageTok : String) :
    UpdateResp × Store :=
  match adminAuthError header validTokens with
  | some m => (.updateDenied m, s)
  | none =>
    match multerSingle s file storageTok with
    | .error e => (.updateRejected (multerErrMsg e), s)
    | .ok (mf, s1) =>
      match s1.drops.find? (fun d => d.docId == id) with
      | none => (.updateNotFound, s1)
      | some d0 =>
        match b.label with
        | some l =>
          if l.length > 100 then
            (.updateRejected "Label must be a string of 100 characters or fewer.", s1)
          else
            adminUpdateRest s1 id { d0 with label := jsTrim l } b mf
        | none => adminUpdateRest s1 id d0 b mf
where
  /-- The handler after the label edit: textContent edit, file removal or
  replacement, save, reply. -/
  adminUpdateRest (s1 : Store) (id : Nat) (d1 : UrlDoc) (b : UpdateBody)
      (mf : Option MulterFile) : UpdateResp × Store :=
    match b.textContent with
    | some tc =>
      if (jsTrim tc).length == 0 || tc.length > 10000 then
        (.updateRejected "Text content must be 1–10,000 characters.", s1)
      else adminUpdateFile s1 id { d1 with textContent := jsTrim tc } b mf
    | none => adminUpdateFile s1 id d1 b mf
  /-- The file removal and replacement steps, then save and reply. -/
  adminUpdateFile (s1 : Store) (id : Nat) (d2 : UrlDoc) (b : UpdateBody)
      (mf : Option MulterFile) : UpdateResp × Store :=
    let deleting := (b.deleteFile == some "true") || mf.isSome
    let s2 :=
      if deleting then
        match d2.filePath with
        | some fp =>
          if !(fp == "") && s1.files.contains fp then { s1 with files := s1.files.erase fp }
          else s1
        | none => s1
      else s1
    let d3 := if deleting then { d2 with fileName := none, filePath := none } else d2
    let d4 :=
      match mf with
      | some f => { d3 with fileName := some f.originalname, filePath := some f.path }
      | none => d3
    (.updateOk d4, { s2 with drops := replaceFirst (fun x => x.docId == id) d4 s2.drops })

/-! ### JSON serialization of responses

What res.json sends for each route outcome, modelled as a list of key/value
fields (one nesting level of document objects, which is all these routes
produce). Only the field structure matters for the claims. -/

/-- An atomic JSON value. -/
inductive JAtom
  | aNull
  | aBool (b : Bool)
  | aNum (n : Int)
  | aStr (s : String)
deriving DecidableEq, Repr

/-- A JSON field value: an atom, one document object, or an array of
document objects. -/
inductive JField
  | fAtom (a : JAtom)
  | fObj (fields : List (String × JAtom))
  | fArr (elems : List (List (String × JAtom)))
deriving DecidableEq, Repr

/-- A serialized response body. -/
abbrev JBody := List (String × JField)

/-- Keys appearing inside a field value. -/
def fieldKeys : JField → List String
  | .fAtom _ => []
  | .fObj fields => fields.map Prod.fst
  | .fArr elems => (elems.map (fun e => e.map Prod.fst)).flatten

/-- Every key appearing anywhere in a response body. -/
def bodyKeys (b : JBody) : List String :=
  b.map Prod.fst ++ (b.map (fun kv => fieldKeys kv.2)).flatten

/-- A nullable string as a JSON atom. -/
def optAtom : Option String → JAtom
  | none => .aNull
  | some s => .aStr s

/-- Opaque rendering of a stored bcrypt digest (the ideal-hash model keeps
the digest unrecoverable; its text never matters to any claim). -/
def digestString (h : BcryptHash) : String :=
  "$2b$12$" ++ toString h.salt

/-- mongoose serialization of a drop document (toObject and res.json): one
key per schema path, plus the document id and timestamp. -/
def docFields (d : UrlDoc) : List (String × JAtom) :=
  [("_id", .aNum (Int.ofNat d.docId)),
   ("shortId", .aStr d.shortId),
   ("passwordHash", .aStr (digestString d.passwordHash)),
   ("textContent", .aStr d.textContent),
   ("fileName", optAtom d.fileName),
   ("filePath", optAtom d.filePath),
   ("label", .aStr d.label),
   ("downloadCount", .aNum (Int.ofNat d.downloadCount)),
   ("createdAt", .aNum (Int.ofNat d.createdAt))]

/-- Removal of one key of a document object (the JavaScript delete
statement, and equally the select exclusion of a query). -/
def removeKey (k : String) (l : List (String × JAtom)) : List (String × JAtom) :=
  l.filter (fun kv => !(kv.1 == k))

/-- An error body. -/
def errBody (msg : String) : JBody := [("error", .fAtom (.aStr msg))]

/-- The res.json body of each verify-route outcome
(src/routes/url.js lines 88-108). -/
def serializeVerify : VerifyResp → JBody
  | .validationRejected m => errBody m
  | .notFound => errBody "Short URL not found."
  | .wrongPassword => errBody "Incorrect password."
  | .ok tc hf fn du =>
    [("success", .fAtom (.aBool true)),
     ("textContent", .fAtom (.aStr tc)),
     ("hasFile", .fAtom (.aBool hf)),
     ("fileName", .fAtom (optAtom fn)),
     ("downloadUrl", .fAtom (optAtom du))]

/-- The res.json body of each admin-list outcome (src/routes/admin.js lines
81-92): the query excludes the passwordHash path, so each returned document
serializes without it. -/
def serializeList : ListResp → JBody
  | .listDenied m => errBody m
  | .listOk urls =>
    [("success", .fAtom (.aBool true)),
     ("urls", .fArr (urls.map (fun d => removeKey "passwordHash" (docFields d))))]

/-- The res.json body of each admin-update outcome (src/routes/admin.js
lines 95-148): the success reply deletes passwordHash from the document
object before sending it. -/
def serializeUpdate : UpdateResp → JBody
  | .updateDenied m => errBody m
  | .updateNotFound => errBody "URL not found."
  | .updateRejected m => errBody m
  | .updateOk d =>
    [("success", .fAtom (.aBool true)),
     ("url", .fObj (removeKey "passwordHash" (docFields d)))]

/-! ### Helper lemmas: the URL-component encoding round-trips -/

theorem stringMk_data (s : String) : String.mk s.data = s := rfl

theorem char_toNat_lt (c : Char) : c.toNat < 0x110000 := by
  rcases c.valid with h | ⟨h1, h2⟩ <;> simp [Char.toNat] <;> omega

theorem hexVal_hexDigitChar (d : Nat) (h : d < 16) :
    hexVal (hexDigitChar d) = some d := by
  interval_cases d <;> decide

theorem pctDecode_cons_ne (c : Char) (h : (c == '%') = false) (cs : List Char) :
    pctDecode (c :: cs) = (pctDecode cs).map (fun bs => c.toNat :: bs) := by
  rw [pctDecode.eq_def]
  simp [h]

theorem pctDecode_encodeByte (b : Nat) (hb : b < 256) (cs : List Char) :
    pctDecode (pctEncodeByte b ++ cs) = (pctDecode cs).map (fun bs => b :: bs) := by
  have h1 : b / 16 < 16 := by omega
  have h2 : b % 16 < 16 := by omega
  rw [pctEncodeByte, List.cons_append, pctDecode.eq_def]
  simp [hexVal_hexDigitChar _ h1, hexVal_hexDigitChar _ h2]
  have hb' : b / 16 * 16 + b % 16 = b := by omega
  rw [hb']

theorem isUriUnreserved_lt (c : Char) (h : isUriUnreserved c = true) :
    c.toNat < 0x80 := by
  simp only [isUriUnreserved, Bool.or_eq_true, Bool.and_eq_true, decide_eq_true_eq,
    beq_iff_eq] at h
  omega

theorem isUriUnreserved_ne_pct (c : Char) (h : isUriUnreserved c = true) :
    (c == '%') = false := by
  by_contra hne
  have hc : c = '%' := by
    have : (c == '%') = true := by
      cases hb : (c == '%') with
      | true => rfl
      | false => exact absurd hb hne
    exact eq_of_beq this
  rw [hc] at h
  exact absurd h (by decide)

theorem utf8Bytes_ascii (c : Char) (h : c.toNat < 0x80) : utf8Bytes c = [c.toNat] := by
  simp [utf8Bytes, h]

theorem utf8Bytes_bound (c : Char) : ∀ b ∈ utf8Bytes c, b < 256 := by
  have hv := char_toNat_lt c
  intro b hb
  simp only [utf8Bytes] at hb
  split_ifs at hb <;> simp at hb <;> omega

theorem pctDecode_encBytes (bs : List Nat) (h : ∀ b ∈ bs, b < 256) (cs : List Char) :
    pctDecode (bs.flatMap pctEncodeByte ++ cs) = (pctDecode cs).map (fun x => bs ++ x) := by
  induction bs with
  | nil => simp
  | cons b rest ih =>
    simp only [List.flatMap_cons, List.append_assoc]
    rw [pctDecode_encodeByte b (h b (by simp)) _, ih (fun x hx => h x (by simp [hx]))]
    rw [Option.map_map]
    rfl

theorem pctDecode_encodeChar (c : Char) (cs : List Char) :
    pctDecode (encodeChar c ++ cs) = (pctDecode cs).map (fun bs => utf8Bytes c ++ bs) := by
  by_cases h : isUriUnreserved c = true
  · rw [encodeChar, if_pos h, utf8Bytes_ascii c (isUriUnreserved_lt c h)]
    simp [pctDecode_cons_ne c (isUriUnreserved_ne_pct c h)]
  · rw [encodeChar, if_neg h]
    exact pctDecode_encBytes (utf8Bytes c) (utf8Bytes_bound c) cs

theorem pctDecode_encode (l : List Char) :
    pctDecode (l.flatMap encodeChar) = some (l.flatMap utf8Bytes) := by
  induction l with
  | nil => rfl
  | cons c rest ih =>
    simp only [List.flatMap_cons]
    rw [pctDecode_encodeChar, ih]
    rfl

theorem utf8Decode_bytes (c : Char) (bs : List Nat) :
    utf8Decode (utf8Bytes c ++ bs) = (utf8Decode bs).map (fun cs => c :: cs) := by
  have hv := char_toNat_lt c
  have hofn : Char.ofNat c.toNat = c := Char.ofNat_toNat c
  simp only [utf8Bytes]
  by_cases h1 : c.toNat < 0x80
  · rw [if_pos h1]
    rw [List.cons_append, List.nil_append]
    simp only [utf8Decode]
    rw [if_pos h1, hofn]
  · rw [if_neg h1]
    by_cases h2 : c.toNat < 0x800
    · rw [if_pos h2]
      rw [List.cons_append, List.cons_append, List.nil_append]
      simp only [utf8Decode]
      rw [if_neg (by omega), if_neg (by omega), if_pos (by omega)]
      simp only [utf8Cont1]
      have hcond : (0x80 ≤ 0x80 + c.toNat % 0x40 && 0x80 + c.toNat % 0x40 < 0xC0) = true := by
        simp only [Bool.and_eq_true, decide_eq_true_eq]
        omega
      rw [hcond, if_pos rfl]
      have harith : (0xC0 + c.toNat / 0x40 - 0xC0) * 0x40 + (0x80 + c.toNat % 0x40 - 0x80)
          = c.toNat := by omega
      rw [harith, hofn]
    · rw [if_neg h2]
      by_cases h3 : c.toNat < 0x10000
      · rw [if_pos h3]
        rw [List.cons_append, List.cons_append, List.cons_append, List.nil_append]
        simp only [utf8Decode]
        rw [if_neg (by omega), if_neg (by omega), if_neg (by omega), if_pos (by omega)]
        simp only [utf8Cont2]
        have hcond : (0x80 ≤ 0x80 + c.toNat / 0x40 % 0x40 && 0x80 + c.toNat / 0x40 % 0x40 < 0xC0
            && (0x80 ≤ 0x80 + c.toNat % 0x40 && 0x80 + c.toNat % 0x40 < 0xC0)) = true := by
          simp only [Bool.and_eq_true, decide_eq_true_eq]
          omega
        rw [hcond, if_pos rfl]
        have harith : (0xE0 + c.toNat / 0x1000 - 0xE0) * 0x1000 +
            (0x80 + c.toNat / 0x40 % 0x40 - 0x80) * 0x40 + (0x80 + c.toNat % 0x40 - 0x80)
            = c.toNat := by omega
        rw [harith, hofn]
      · rw [if_neg h3]
        rw [List.cons_append, List.cons_append, List.cons_append, List.cons_append,
          List.nil_append]
        simp only [utf8Decode]
        rw [if_neg (by omega), if_neg (by omega), if_neg (by omega), if_neg (by omega)]
        simp only [utf8Cont3]
        have hcond : (0x80 ≤ 0x80 + c.toNat / 0x1000 % 0x40 &&
            0x80 + c.toNat / 0x1000 % 0x40 < 0xC0 &&
            (0x80 ≤ 0x80 + c.toNat / 0x40 % 0x40 && 0x80 + c.toNat / 0x40 % 0x40 < 0xC0 &&
             (0x80 ≤ 0x80 + c.toNat % 0x40 && 0x80 + c.toNat % 0x40 < 0xC0))) = true := by
          simp only [Bool.and_eq_true, decide_eq_true_eq]
          omega
        rw [hcond, if_pos rfl]
        have harith : (0xF0 + c.toNat / 0x40000 - 0xF0) * 0x40000 +
            (0x80 + c.toNat / 0x1000 % 0x40 - 0x80) * 0x1000 +
            (0x80 + c.toNat / 0x40 % 0x40 - 0x80) * 0x40 + (0x80 + c.toNat % 0x40 - 0x80)
            = c.toNat := by omega
        rw [harith, hofn]

theorem utf8Decode_encode (l : List Char) :
    utf8Decode (l.flatMap utf8Bytes) = some l := by
  induction l with
  | nil => rfl
  | cons c rest ih =>
    simp only [List.flatMap_cons]
    rw [utf8Decode_bytes, ih]
    rfl

/-- The URL-component encoding round-trips: the HTTP layer recovers exactly
the string that encodeURIComponent embedded in the query. -/
theorem decodeURIComponent_encode (s : String) :
    decodeURIComponent (encodeURIComponent s) = some s := by
  rw [decodeURIComponent, encodeURIComponent]
  have hdata : (String.mk (s.data.flatMap encodeChar)).data = s.data.flatMap encodeChar := rfl
  rw [hdata, pctDecode_encode]
  show (utf8Decode (s.data.flatMap utf8Bytes)).map String.mk = some s
  rw [utf8Decode_encode]
  rfl

theorem dropWhile_until_qmark (l1 l2 : List Char)
    (h : ∀ c ∈ l1, (c == '?') = false) :
    (l1 ++ '?' :: l2).dropWhile (fun c => !(c == '?')) = '?' :: l2 := by
  induction l1 with
  | nil => simp [List.dropWhile_cons]
  | cons c rest ih =>
    rw [List.cons_append, List.dropWhile_cons]
    rw [if_pos (by simp [h c (by simp)])]
    exact ih (fun x hx => h x (by simp [hx]))

/-- The token query parameter of the downloadUrl built by the verify handler
decodes back to exactly the password placed there. -/
theorem tokenParamOf_downloadUrl (sid p : String) (h : '?' ∉ sid.data) :
    tokenParamOf (downloadUrlFor sid p) = some p := by
  have hdata : (downloadUrlFor sid p).data
      = ("/api/".data ++ sid.data ++ "/download".data) ++
        '?' :: ("token=".data ++ (encodeURIComponent p).data) := by
    simp only [downloadUrlFor, String.data_append]
    simp [List.append_assoc]
  have hapi : ∀ c ∈ "/api/".data, (c == '?') = false := by decide
  have hdl : ∀ c ∈ "/download".data, (c == '?') = false := by decide
  have hpre : ∀ c ∈ "/api/".data ++ sid.data ++ "/download".data, (c == '?') = false := by
    intro c hc
    rcases List.mem_append.1 hc with hc1 | hc2
    · rcases List.mem_append.1 hc1 with hc3 | hc4
      · exact hapi c hc3
      · exact beq_eq_false_iff_ne.2 (fun he => h (he ▸ hc4))
    · exact hdl c hc2
  rw [tokenParamOf, afterQuery, hdata, dropWhile_until_qmark _ _ hpre]
  rw [List.drop_succ_cons, List.drop_zero]
  rw [List.take_left' (by decide), List.drop_left' (by decide)]
  rw [if_pos (beq_self_eq_true _)]
  rw [stringMk_data]
  exact decodeURIComponent_encode p

/-! ### Helper lemmas on the store -/

theorem find?_replaceFirst (p : α → Bool) (a : α) (l : List α) (h : p a = true) :
    (replaceFirst p a l).find? p = (l.find? p).map (fun _ => a) := by
  induction l with
  | nil => rfl
  | cons x xs ih =>
    by_cases hx : p x
    · rw [replaceFirst, if_pos hx, List.find?_cons_of_pos _ h, List.find?_cons_of_pos _ hx]
      rfl
    · rw [replaceFirst, if_neg hx, List.find?_cons_of_neg _ (by simp [hx]),
        List.find?_cons_of_neg _ (by simp [hx]), ih]

theorem findOne_append_fresh (s : Store) (sid : String) (d : UrlDoc)
    (hfresh : findOne s sid = none) (hd : d.shortId = sid) (fs : List String) :
    findOne ⟨s.drops ++ [d], fs⟩ sid = some d := by
  rw [findOne] at hfresh ⊢
  rw [List.find?_append, hfresh]
  simp [hd]

/-! ## The claims -/

/-- C3: serial numbers across sequential creations are claimed to be strictly
increasing, unique, starting at 1001, persisted with the drop and returned in
the creation response. Evaluating the serial-number route variant at its
failing input (two sequential creations from an empty store) shows the first
response carries 1001 but the saved document persists no serialNumber (the
schema has no such path), so the second creation computes undefined + 1 = NaN
instead of 1002. -/
theorem serial_numbers_not_increasing_c3 :
    (createSerialRequest ⟨[], []⟩ ⟨some "abcd", some "hi", none⟩ none 0
        "sid00001" "tok1" "http://h").1
      = .createdS "http://h/sid00001" "sid00001" (.num 1001)
    ∧ (createSerialRequest
        (createSerialRequest ⟨[], []⟩ ⟨some "abcd", some "hi", none⟩ none 0
          "sid00001" "tok1" "http://h").2
        ⟨some "abcd", some "hi", none⟩ none 1 "sid00002" "tok2" "http://h").1
      = .createdS "http://h/sid00002" "sid00002" .nan
    ∧ getNextSerialNumber
        (createSerialRequest ⟨[], []⟩ ⟨some "abcd", some "hi", none⟩ none 0
          "sid00001" "tok1" "http://h").2.drops ≠ .num 1002 := by
  exact ⟨by decide, by decide, by decide⟩

/-- C7: an upload larger than the configured ceiling is rejected with 400,
but the rejection reason does not surface the effective limit: the limit
applied is MAX_FILE_SIZE = 50 MB (validate.js line 5) while the error handler
of src/server.js lines 28-37 words the reason as a 10 MB limit. -/
theorem oversize_upload_message_c7 :
    (∀ (s : Store) (b : ShortenBody) (f : IncomingFile) (salt : Nat)
        (sid storageTok baseUrl : String),
      fileExtAllowed f.originalname = true →
      f.size > MAX_FILE_SIZE →
      createRequest s b (some f) salt sid storageTok baseUrl
        = (.badRequest "File size exceeds the 10 MB limit.", s))
    ∧ MAX_FILE_SIZE = 50 * 1024 * 1024 := by
  constructor
  · intro s b f salt sid storageTok baseUrl hext hsz
    rw [createRequest, multerSingle]
    rw [if_neg (by simp [hext]), if_pos hsz]
    rfl
  · rfl

/-- Witness for C7 at a concrete input: a 50 MB + 1 byte pdf upload is
rejected with the 10 MB wording. -/
theorem oversize_upload_message_c7_witness :
    createRequest ⟨[], []⟩ ⟨some "abcd", some "hi", none⟩
        (some ⟨"a.pdf", 52428801⟩) 0 "sid00001" "tok1" "http://h"
      = (.badRequest "File size exceeds the 10 MB limit.", ⟨[], []⟩)
    ∧ MAX_FILE_SIZE = 50 * 1024 * 1024 :=
  ⟨oversize_upload_message_c7.1 ⟨[], []⟩ ⟨some "abcd", some "hi", none⟩
      ⟨"a.pdf", 52428801⟩ 0 "sid00001" "tok1" "http://h" (by decide) (by decide),
    oversize_upload_message_c7.2⟩

/-- C6: an upload whose extension (case-insensitively) is outside the
allow-list is rejected by the fileFilter before any byte is written and
before validation or the handler run: the response is the 400 file-type
message and the store (drop records and on-disk files alike) is unchanged. -/
theorem disallowed_extension_rejected_c6 :
    ∀ (s : Store) (b : ShortenBody) (f : IncomingFile) (salt : Nat)
      (sid storageTok baseUrl : String),
      fileExtAllowed f.originalname = false →
      createRequest s b (some f) salt sid storageTok baseUrl
        = (.badRequest (fileTypeErrorMsg (asciiLower (extname f.originalname))), s) := by
  intro s b f salt sid storageTok baseUrl hext
  rw [createRequest, multerSingle]
  rw [if_pos (by simp [hext])]
  rfl

/-- Witness for C6: a .exe upload is rejected and the empty store stays
empty. -/
theorem disallowed_extension_rejected_c6_witness :
    createRequest ⟨[], []⟩ ⟨some "abcd", some "hi", none⟩ (some ⟨"run.exe", 10⟩) 0
        "sid00001" "tok1" "http://h"
      = (.badRequest (fileTypeErrorMsg (asciiLower (extname "run.exe"))), ⟨[], []⟩) :=
  disallowed_extension_rejected_c6 ⟨[], []⟩ ⟨some "abcd", some "hi", none⟩
    ⟨"run.exe", 10⟩ 0 "sid00001" "tok1" "http://h" (by decide)

/-- C10: a download request carrying no token (or an empty one) is answered
401 before any lookup, so it is Unauthorized even for unknown shortIds; the
NotFound outcome is reachable only when a token was supplied; and the
NoFileAttached outcome is reachable only once the supplied token has
verified against the stored password hash. -/
theorem download_auth_order_c10 :
    (∀ (s : Store) (sid : String), downloadRequest s sid none = (.authRequired, s))
    ∧ (∀ (s : Store) (sid : String), downloadRequest s sid (some "") = (.authRequired, s))
    ∧ (∀ (s : Store) (sid : String) (tok : Option String),
        (downloadRequest s sid tok).1 = .notFound → ∃ t, tok = some t)
    ∧ (∀ (s : Store) (sid : String) (tok : Option String),
        (downloadRequest s sid tok).1 = .noFile →
          ∃ t d, tok = some t ∧ findOne s sid = some d
            ∧ bcryptCompare t d.passwordHash = true) := by
  refine ⟨fun s sid => rfl, fun s sid => rfl, ?_, ?_⟩
  · intro s sid tok h
    cases tok with
    | none => exact absurd h (by simp [downloadRequest])
    | some t => exact ⟨t, rfl⟩
  · intro s sid tok h
    cases tok with
    | none => exact absurd h (by simp [downloadRequest])
    | some t =>
      by_cases ht : t = ""
      · subst ht
        exact absurd h (by simp [downloadRequest])
      · refine ⟨t, ?_⟩
        rw [downloadRequest] at h
        rw [if_neg (by simp [ht])] at h
        cases hfind : findOne s sid with
        | none =>
          rw [downloadCore, hfind] at h
          simp at h
        | some d =>
          refine ⟨d, rfl, rfl, ?_⟩
          by_cases hcmp : bcryptCompare t d.passwordHash
          · exact hcmp
          · rw [downloadCore, hfind] at h
            simp [hcmp] at h

/-- Witness for C10 at concrete inputs: its notFound conjunct applied where
the lookup fails with a token supplied, and its noFile conjunct applied to a
drop without attachment reached with the correct token. -/
theorem download_auth_order_c10_witness :
    (∃ t, (some "pw" : Option String) = some t)
    ∧ (∃ t d, (some "pw" : Option String) = some t
        ∧ findOne ⟨[⟨0, "abc12345", bcryptHash "pw" 0, "T", none, none, "", 0, 0⟩], []⟩
            "abc12345" = some d
        ∧ bcryptCompare t d.passwordHash = true) :=
  ⟨download_auth_order_c10.2.2.1 ⟨[], []⟩ "zzz" (some "pw") (by decide),
   download_auth_order_c10.2.2.2
     ⟨[⟨0, "abc12345", bcryptHash "pw" 0, "T", none, none, "", 0, 0⟩], []⟩
     "abc12345" (some "pw") (by decide)⟩

/-- C2: a download re-verifies the supplied token against the stored
passwordHash; a successful authorized download streams the file under its
display name and increments exactly that drop's downloadCount by exactly 1
(the store update replaces the fetched document with its count raised by
one, and a fresh lookup sees the incremented value), while a missing or
empty or incorrect token is answered 401 with the whole store, in particular
every downloadCount, unchanged. -/
theorem download_count_semantics_c2 :
    (∀ (s : Store) (sid t : String) (d : UrlDoc) (fp : String),
      findOne s sid = some d → t ≠ "" →
      bcryptCompare t d.passwordHash = true →
      d.filePath = some fp → fp ≠ "" → s.files.contains fp = true →
      downloadRequest s sid (some t)
        = (.fileStream fp d.fileName,
           ⟨replaceFirst (fun x => x.shortId == sid) (incDownload d) s.drops, s.files⟩)
      ∧ findOne (downloadRequest s sid (some t)).2 sid = some (incDownload d))
    ∧ (∀ (s : Store) (sid : String), downloadRequest s sid none = (.authRequired, s))
    ∧ (∀ (s : Store) (sid : String), downloadRequest s sid (some "") = (.authRequired, s))
    ∧ (∀ (s : Store) (sid t : String) (d : UrlDoc),
        t ≠ "" → findOne s sid = some d →
        bcryptCompare t d.passwordHash = false →
        downloadRequest s sid (some t) = (.wrongPassword, s)) := by
  refine ⟨?_, fun s sid => rfl, fun s sid => rfl, ?_⟩
  · intro s sid t d fp hfind ht hcmp hfp hfpne hcont
    have hstep : downloadRequest s sid (some t)
        = (.fileStream fp d.fileName,
           ⟨replaceFirst (fun x => x.shortId == sid) (incDownload d) s.drops, s.files⟩) := by
      rw [downloadRequest]
      rw [if_neg (by simp [ht])]
      rw [downloadCore, hfind]
      have hmem : fp ∈ s.files := List.mem_of_elem_eq_true hcont
      simp [downloadStream, hfp, hcmp, hmem, hfpne, incDownload]
    refine ⟨hstep, ?_⟩
    have hfind' : s.drops.find? (fun x => x.shortId == sid) = some d := hfind
    have hpd : (d.shortId == sid) = true :=
      List.find?_some (p := fun x : UrlDoc => x.shortId == sid) (a := d) hfind'
    have hpd2 : (fun x : UrlDoc => x.shortId == sid) (incDownload d) = true := hpd
    rw [findOne, hstep]
    dsimp only
    rw [find?_replaceFirst (fun x : UrlDoc => x.shortId == sid) (incDownload d)
      s.drops hpd2, hfind']
    rfl
  · intro s sid t d ht hfind hcmp
    rw [downloadRequest]
    rw [if_neg (by simp [ht])]
    rw [downloadCore, hfind]
    simp [hcmp]

/-- Witness for C2 at a concrete input: downloading the single drop's file
with the correct token streams it and bumps its count from 0 to 1; the
failure conjuncts applied at the same store leave it unchanged. -/
theorem download_count_semantics_c2_witness :
    (downloadRequest
        ⟨[⟨0, "abc12345", bcryptHash "pw" 0, "T", some "f.txt", some "uploads/t.txt", "", 0, 0⟩],
          ["uploads/t.txt"]⟩ "abc12345" (some "pw")
      = (.fileStream "uploads/t.txt" (some "f.txt"),
         ⟨replaceFirst (fun x => x.shortId == "abc12345")
             (incDownload ⟨0, "abc12345", bcryptHash "pw" 0, "T", some "f.txt",
               some "uploads/t.txt", "", 0, 0⟩)
             [⟨0, "abc12345", bcryptHash "pw" 0, "T", some "f.txt", some "uploads/t.txt", "", 0, 0⟩],
           ["uploads/t.txt"]⟩)
      ∧ findOne (downloadRequest
          ⟨[⟨0, "abc12345", bcryptHash "pw" 0, "T", some "f.txt", some "uploads/t.txt", "", 0, 0⟩],
            ["uploads/t.txt"]⟩ "abc12345" (some "pw")).2 "abc12345"
        = some (incDownload ⟨0, "abc12345", bcryptHash "pw" 0, "T", some "f.txt",
            some "uploads/t.txt", "", 0, 0⟩))
    ∧ downloadRequest
        ⟨[⟨0, "abc12345", bcryptHash "pw" 0, "T", some "f.txt", some "uploads/t.txt", "", 0, 0⟩],
          ["uploads/t.txt"]⟩ "abc12345" (some "wrong")
      = (.wrongPassword,
         ⟨[⟨0, "abc12345", bcryptHash "pw" 0, "T", some "f.txt", some "uploads/t.txt", "", 0, 0⟩],
           ["uploads/t.txt"]⟩) :=
  ⟨download_count_semantics_c2.1
      ⟨[⟨0, "abc12345", bcryptHash "pw" 0, "T", some "f.txt", some "uploads/t.txt", "", 0, 0⟩],
        ["uploads/t.txt"]⟩ "abc12345" "pw"
      ⟨0, "abc12345", bcryptHash "pw" 0, "T", some "f.txt", some "uploads/t.txt", "", 0, 0⟩
      "uploads/t.txt" (by decide) (by decide) (by decide) (by decide) (by decide) (by decide),
   download_count_semantics_c2.2.2.2
      ⟨[⟨0, "abc12345", bcryptHash "pw" 0, "T", some "f.txt", some "uploads/t.txt", "", 0, 0⟩],
        ["uploads/t.txt"]⟩ "abc12345" "wrong"
      ⟨0, "abc12345", bcryptHash "pw" 0, "T", some "f.txt", some "uploads/t.txt", "", 0, 0⟩
      (by decide) (by decide) (by decide)⟩

theorem strLen_beq_zero_of_ne (s : String) (h : s ≠ "") : (s.length == 0) = false := by
  cases s with
  | mk data =>
    cases data with
    | nil => exact absurd rfl h
    | cons c cs => rfl

theorem validateVerifyInput_ok (p : String) (hp : jsTrim p ≠ "") :
    validateVerifyInput (some p) = .ok (jsTrim p) := by
  rw [validateVerifyInput]
  rw [if_neg (by simp [strLen_beq_zero_of_ne _ hp])]

/-- C1: on a drop with an attached file, a successful verification returns
the text content, hasFile = true, the display fileName, and a downloadUrl
whose token query parameter decodes to exactly the (trimmed) password that
just verified against the hash — the password is the download capability;
with no attachment the downloadUrl is null; an unknown shortId is 404 and a
wrong password is 401 whose response carries no content fields. -/
theorem verify_and_retrieve_c1 :
    (∀ (s : Store) (sid p : String) (d : UrlDoc) (fn : String),
      findOne s sid = some d → jsTrim p ≠ "" →
      bcryptCompare (jsTrim p) d.passwordHash = true →
      d.fileName = some fn → fn ≠ "" → '?' ∉ sid.data →
      verifyRequest s sid (some p)
        = .ok d.textContent true (some fn) (some (downloadUrlFor sid (jsTrim p)))
      ∧ tokenParamOf (downloadUrlFor sid (jsTrim p)) = some (jsTrim p))
    ∧ (∀ (s : Store) (sid p : String) (d : UrlDoc),
      findOne s sid = some d → jsTrim p ≠ "" →
      bcryptCompare (jsTrim p) d.passwordHash = true → d.fileName = none →
      verifyRequest s sid (some p) = .ok d.textContent false none none)
    ∧ (∀ (s : Store) (sid p : String),
      jsTrim p ≠ "" → findOne s sid = none → verifyRequest s sid (some p) = .notFound)
    ∧ (∀ (s : Store) (sid p : String) (d : UrlDoc),
      jsTrim p ≠ "" → findOne s sid = some d →
      bcryptCompare (jsTrim p) d.passwordHash = false →
      verifyRequest s sid (some p) = .wrongPassword) := by
  refine ⟨?_, ?_, ?_, ?_⟩
  · intro s sid p d fn hfind hp hcmp hfn hfnne hq
    refine ⟨?_, tokenParamOf_downloadUrl sid (jsTrim p) hq⟩
    rw [verifyRequest, validateVerifyInput_ok p hp]
    dsimp only
    rw [verifyHandler, hfind]
    simp [hcmp, verifyOk, hfn, jsTruthyStr, hfnne]
  · intro s sid p d hfind hp hcmp hfn
    rw [verifyRequest, validateVerifyInput_ok p hp]
    dsimp only
    rw [verifyHandler, hfind]
    simp [hcmp, verifyOk, hfn, jsTruthyStr]
  · intro s sid p hp hfind
    rw [verifyRequest, validateVerifyInput_ok p hp]
    dsimp only
    rw [verifyHandler, hfind]
  · intro s sid p d hp hfind hcmp
    rw [verifyRequest, validateVerifyInput_ok p hp]
    dsimp only
    rw [verifyHandler, hfind]
    simp [hcmp]

/-- Witness for C1 at a concrete store: the file-bearing drop verifies with
its password and yields a downloadUrl whose token decodes to that password;
an unknown shortId is notFound; a wrong password is wrongPassword. -/
theorem verify_and_retrieve_c1_witness :
    (verifyRequest
        ⟨[⟨0, "abc12345", bcryptHash "pw123" 0, "T", some "f.txt", some "uploads/t.txt", "", 0, 0⟩],
          ["uploads/t.txt"]⟩ "abc12345" (some "pw123")
      = .ok "T" true (some "f.txt") (some (downloadUrlFor "abc12345" (jsTrim "pw123")))
      ∧ tokenParamOf (downloadUrlFor "abc12345" (jsTrim "pw123")) = some (jsTrim "pw123"))
    ∧ verifyRequest ⟨[], []⟩ "zzz" (some "pw123") = .notFound
    ∧ verifyRequest
        ⟨[⟨0, "abc12345", bcryptHash "pw123" 0, "T", some "f.txt", some "uploads/t.txt", "", 0, 0⟩],
          ["uploads/t.txt"]⟩ "abc12345" (some "wrong") = .wrongPassword :=
  ⟨verify_and_retrieve_c1.1
      ⟨[⟨0, "abc12345", bcryptHash "pw123" 0, "T", some "f.txt", some "uploads/t.txt", "", 0, 0⟩],
        ["uploads/t.txt"]⟩ "abc12345" "pw123"
      ⟨0, "abc12345", bcryptHash "pw123" 0, "T", some "f.txt", some "uploads/t.txt", "", 0, 0⟩
      "f.txt" (by decide) (by decide) (by decide) (by decide) (by decide) (by decide),
   verify_and_retrieve_c1.2.2.1 ⟨[], []⟩ "zzz" "pw123" (by decide) (by decide),
   verify_and_retrieve_c1.2.2.2
      ⟨[⟨0, "abc12345", bcryptHash "pw123" 0, "T", some "f.txt", some "uploads/t.txt", "", 0, 0⟩],
        ["uploads/t.txt"]⟩ "abc12345" "wrong"
      ⟨0, "abc12345", bcryptHash "pw123" 0, "T", some "f.txt", some "uploads/t.txt", "", 0, 0⟩
      (by decide) (by decide) (by decide)⟩

theorem multerSingle_accepted (s : Store) (file : Option IncomingFile) (tok : String)
    (hacc : multerAccepts file = true) :
    ∃ mf fs2, multerSingle s file tok = .ok (mf, ⟨s.drops, fs2⟩) := by
  cases file with
  | none => exact ⟨none, s.files, rfl⟩
  | some f =>
    rw [multerAccepts] at hacc
    rw [Bool.and_eq_true, decide_eq_true_eq] at hacc
    obtain ⟨hext, hsize⟩ := hacc
    refine ⟨some ⟨f.originalname, storagePathFor tok f.originalname⟩,
      storagePathFor tok f.originalname :: s.files, ?_⟩
    rw [multerSingle]
    rw [if_neg (by simp [hext]), if_neg (by omega)]

theorem validateShorten_fields (b : ShortenBody) (v : ValidShorten)
    (h : validateShortenInput b = .ok v) :
    ∃ pw tc, b.password = some pw ∧ b.textContent = some tc
      ∧ v.password = jsTrim pw ∧ v.textContent = jsTrim tc
      ∧ 4 ≤ v.password.length := by
  cases hpw : b.password with
  | none => rw [validateShortenInput, hpw] at h; cases h
  | some pw =>
    cases htc : b.textContent with
    | none =>
      rw [validateShortenInput, hpw, htc] at h
      dsimp only at h
      split_ifs at h <;> cases h
    | some tc =>
      refine ⟨pw, tc, rfl, rfl, ?_⟩
      rw [validateShortenInput, hpw, htc] at h
      dsimp only at h
      split_ifs at h with h1 h2 h3 h4 h5 <;> try cases h
      have hlen : 4 ≤ (jsTrim pw).length := by omega
      cases hl : b.label with
      | none =>
        rw [hl] at h
        cases h
        exact ⟨rfl, rfl, hlen⟩
      | some l =>
        rw [hl] at h
        dsimp only at h
        split_ifs at h with h6 <;> cases h
        exact ⟨rfl, rfl, hlen⟩

theorem validateShorten_password_len (b : ShortenBody) (v : ValidShorten)
    (h : validateShortenInput b = .ok v) : v.password ≠ "" := by
  obtain ⟨pw, tc, _, _, hvp, _, hlen⟩ := validateShorten_fields b v h
  intro he
  rw [he] at hlen
  exact absurd hlen (by decide)

/-- The document a valid creation persists, and where it lands: createRequest
answers 201 with the short URL and appends the document, findable under its
fresh shortId. -/
theorem createRequest_spec (s : Store) (b : ShortenBody) (file : Option IncomingFile)
    (salt : Nat) (sid storageTok baseUrl : String) (v : ValidShorten)
    (hacc : multerAccepts file = true) (hval : validateShortenInput b = .ok v)
    (hfresh : findOne s sid = none) :
    ∃ (doc : UrlDoc) (s2 : Store),
      createRequest s b file salt sid storageTok baseUrl
        = (.created (baseUrl ++ "/" ++ sid) sid, s2)
      ∧ findOne s2 sid = some doc
      ∧ doc.textContent = v.textContent
      ∧ doc.passwordHash = bcryptHash v.password salt
      ∧ doc.shortId = sid := by
  obtain ⟨mf, fs2, hms⟩ := multerSingle_accepted s file storageTok hacc
  refine ⟨shortenDoc ⟨s.drops, fs2⟩ v mf salt sid,
    ⟨s.drops ++ [shortenDoc ⟨s.drops, fs2⟩ v mf salt sid], fs2⟩, ?_, ?_, rfl, rfl, rfl⟩
  · rw [createRequest, hms]
    dsimp only
    rw [shortenValidated, hval]
    rfl
  · exact findOne_append_fresh ⟨s.drops, fs2⟩ sid _ hfresh rfl fs2

/-- After a valid creation, verification of the same shortId is decided by
the trim of the submitted password against the stored (trimmed) creation
password: equal trims succeed and return the stored textContent, different
non-empty trims are wrongPassword, empty trims are rejected by validation. -/
theorem create_then_verify (s : Store) (b : ShortenBody) (file : Option IncomingFile)
    (salt : Nat) (sid storageTok baseUrl : String) (v : ValidShorten)
    (hacc : multerAccepts file = true) (hval : validateShortenInput b = .ok v)
    (hfresh : findOne s sid = none) :
    ∃ s2, createRequest s b file salt sid storageTok baseUrl
        = (.created (baseUrl ++ "/" ++ sid) sid, s2)
      ∧ (∀ q : String, jsTrim q = v.password →
          ∃ hf fn du, verifyRequest s2 sid (some q) = .ok v.textContent hf fn du)
      ∧ (∀ q : String, jsTrim q ≠ "" → jsTrim q ≠ v.password →
          verifyRequest s2 sid (some q) = .wrongPassword)
      ∧ (∀ q : String, jsTrim q = "" →
          verifyRequest s2 sid (some q) = .validationRejected "Password is required.") := by
  obtain ⟨doc, s2, hcreate, hfindo, hdtc, hdph, hdsid⟩ :=
    createRequest_spec s b file salt sid storageTok baseUrl v hacc hval hfresh
  refine ⟨s2, hcreate, ?_, ?_, ?_⟩
  · intro q hq
    have hne : jsTrim q ≠ "" := by
      rw [hq]
      exact validateShorten_password_len b v hval
    refine ⟨jsTruthyStr doc.fileName, doc.fileName,
      if jsTruthyStr doc.fileName then some (downloadUrlFor sid (jsTrim q)) else none, ?_⟩
    rw [verifyRequest, validateVerifyInput_ok q hne]
    dsimp only
    rw [verifyHandler, hfindo]
    have hcmp : bcryptCompare (jsTrim q) doc.passwordHash = true := by
      rw [hdph, hq]
      simp [bcryptCompare, bcryptHash]
    simp [hcmp, verifyOk, hdtc]
  · intro q hne hq
    rw [verifyRequest, validateVerifyInput_ok q hne]
    dsimp only
    rw [verifyHandler, hfindo]
    have hcmp : bcryptCompare (jsTrim q) doc.passwordHash = false := by
      rw [hdph]
      simp [bcryptCompare, bcryptHash]
      exact hq
    simp [hcmp]
  · intro q hq
    rw [verifyRequest]
    simp [validateVerifyInput, hq]

/-- C4: the claim that the textContent returned after verification equals
the submitted textContent byte-for-byte including leading or trailing
whitespace fails on the code: validateShortenInput trims the submission
(validate.js line 42); submitting a leading-space text and verifying returns
the trimmed text. -/
theorem text_roundtrip_c4_counterexample :
    verifyRequest (createRequest ⟨[], []⟩ ⟨some "abcd", some " hello", none⟩ none 0
        "sid00001" "tok1" "http://h").2 "sid00001" (some "abcd")
      = .ok "hello" false none none
    ∧ "hello" ≠ " hello" :=
  ⟨by decide, by decide⟩

/-- C4 (amended): for every valid creation, the textContent returned by a
subsequent successful verification equals the trim of the submitted
textContent — byte-for-byte equality with the submission holds exactly when
the submitted text carries no leading or trailing whitespace. -/
theorem text_roundtrip_amended_c4 :
    (∀ (s : Store) (b : ShortenBody) (file : Option IncomingFile) (salt : Nat)
        (sid storageTok baseUrl : String) (v : ValidShorten),
      multerAccepts file = true → validateShortenInput b = .ok v →
      findOne s sid = none →
      ∃ s2, createRequest s b file salt sid storageTok baseUrl
          = (.created (baseUrl ++ "/" ++ sid) sid, s2)
        ∧ ∀ q : String, jsTrim q = v.password →
            ∃ hf fn du, verifyRequest s2 sid (some q) = .ok v.textContent hf fn du)
    ∧ (∀ (b : ShortenBody) (tc : String) (v : ValidShorten),
        b.textContent = some tc → validateShortenInput b = .ok v →
        v.textContent = jsTrim tc) := by
  constructor
  · intro s b file salt sid storageTok baseUrl v hacc hval hfresh
    obtain ⟨s2, hc, hok, _, _⟩ :=
      create_then_verify s b file salt sid storageTok baseUrl v hacc hval hfresh
    exact ⟨s2, hc, hok⟩
  · intro b tc v htc hval
    obtain ⟨pw, tc2, hpw, htc2, hvp, hvt, hlen⟩ := validateShorten_fields b v hval
    rw [htc] at htc2
    cases htc2
    exact hvt

/-- Witness for the amended C4 at a concrete creation with a leading-space
text: verification with the creation password returns the trimmed text. -/
theorem text_roundtrip_amended_c4_witness :
    (∃ s2, createRequest ⟨[], []⟩ ⟨some "abcd", some " hello", none⟩ none 0
          "sid00001" "tok1" "http://h"
        = (.created ("http://h" ++ "/" ++ "sid00001") "sid00001", s2)
      ∧ ∀ q : String, jsTrim q = (⟨"abcd", "hello", ""⟩ : ValidShorten).password →
          ∃ hf fn du, verifyRequest s2 "sid00001" (some q)
            = .ok (⟨"abcd", "hello", ""⟩ : ValidShorten).textContent hf fn du)
    ∧ (⟨"abcd", "hello", ""⟩ : ValidShorten).textContent = jsTrim " hello" :=
  ⟨text_roundtrip_amended_c4.1 ⟨[], []⟩ ⟨some "abcd", some " hello", none⟩ none 0
      "sid00001" "tok1" "http://h" ⟨"abcd", "hello", ""⟩ (by decide) (by rfl) (by decide),
   text_roundtrip_amended_c4.2 ⟨some "abcd", some " hello", none⟩ " hello"
      ⟨"abcd", "hello", ""⟩ rfl (by rfl)⟩

/-- C5: the claim that no password string other than the exact creation
password verifies fails on the code: both creation and verification trim the
password (validate.js lines 41 and 71), so creating with a trailing-space
password and verifying with the space-free variant succeeds. -/
theorem password_gate_c5_counterexample :
    (∃ hf fn du, verifyRequest (createRequest ⟨[], []⟩ ⟨some "abcd ", some "hello", none⟩
        none 0 "sid00001" "tok1" "http://h").2 "sid00001" (some "abcd")
      = VerifyResp.ok "hello" hf fn du)
    ∧ "abcd" ≠ "abcd " :=
  ⟨⟨false, none, none, by decide⟩, by decide⟩

/-- C5 (amended): after a valid creation, verification succeeds for exactly
the password strings whose trim equals the trim of the creation password
(in particular for the creation password itself); every password whose trim
differs and is non-empty fails with WrongPassword, and whitespace-only
passwords are rejected by validation. -/
theorem password_gate_amended_c5 :
    (∀ (s : Store) (b : ShortenBody) (file : Option IncomingFile) (salt : Nat)
        (sid storageTok baseUrl : String) (v : ValidShorten),
      multerAccepts file = true → validateShortenInput b = .ok v →
      findOne s sid = none →
      ∃ s2, createRequest s b file salt sid storageTok baseUrl
          = (.created (baseUrl ++ "/" ++ sid) sid, s2)
        ∧ (∀ q : String, jsTrim q = v.password →
            ∃ hf fn du, verifyRequest s2 sid (some q) = .ok v.textContent hf fn du)
        ∧ (∀ q : String, jsTrim q ≠ "" → jsTrim q ≠ v.password →
            verifyRequest s2 sid (some q) = .wrongPassword)
        ∧ (∀ q : String, jsTrim q = "" →
            verifyRequest s2 sid (some q) = .validationRejected "Password is required."))
    ∧ (∀ (b : ShortenBody) (pw : String) (v : ValidShorten),
        b.password = some pw → validateShortenInput b = .ok v →
        v.password = jsTrim pw) := by
  constructor
  · intro s b file salt sid storageTok baseUrl v hacc hval hfresh
    exact create_then_verify s b file salt sid storageTok baseUrl v hacc hval hfresh
  · intro b pw v hpw hval
    obtain ⟨pw2, tc, hpw2, htc, hvp, hvt, hlen⟩ := validateShorten_fields b v hval
    rw [hpw] at hpw2
    cases hpw2
    exact hvp

/-- Witness for the amended C5 at a concrete creation: the trailing-space
creation password stores its trim; the space-free variant verifies, a
genuinely different password is wrongPassword, a blank one is rejected. -/
theorem password_gate_amended_c5_witness :
    (∃ s2, createRequest ⟨[], []⟩ ⟨some "abcd ", some "hello", none⟩ none 0
          "sid00001" "tok1" "http://h"
        = (.created ("http://h" ++ "/" ++ "sid00001") "sid00001", s2)
      ∧ (∀ q : String, jsTrim q = (⟨"abcd", "hello", ""⟩ : ValidShorten).password →
          ∃ hf fn du, verifyRequest s2 "sid00001" (some q)
            = .ok (⟨"abcd", "hello", ""⟩ : ValidShorten).textContent hf fn du)
      ∧ (∀ q : String, jsTrim q ≠ "" →
          jsTrim q ≠ (⟨"abcd", "hello", ""⟩ : ValidShorten).password →
          verifyRequest s2 "sid00001" (some q) = .wrongPassword)
      ∧ (∀ q : String, jsTrim q = "" →
          verifyRequest s2 "sid00001" (some q)
            = .validationRejected "Password is required."))
    ∧ (⟨"abcd", "hello", ""⟩ : ValidShorten).password = jsTrim "abcd " :=
  ⟨password_gate_amended_c5.1 ⟨[], []⟩ ⟨some "abcd ", some "hello", none⟩ none 0
      "sid00001" "tok1" "http://h" ⟨"abcd", "hello", ""⟩ (by decide) (by rfl) (by decide),
   password_gate_amended_c5.2 ⟨some "abcd ", some "hello", none⟩ "abcd "
      ⟨"abcd", "hello", ""⟩ rfl (by rfl)⟩

theorem hitsState_seq (a : String) (t : Nat) : ∀ n, hitsState a t (n + 1) = [(a, t, n + 1)] := by
  intro n
  induction n with
  | zero => rfl
  | succ j ih =>
    rw [hitsState, ih, sensitiveHit, rlHit]
    have hlk : rlLookup [(a, t, j + 1)] a = some (t, j + 1) := by
      simp [rlLookup]
    rw [hlk]
    dsimp only
    have hw : windowMs = 900000 := rfl
    rw [if_neg (by rw [hw]; omega)]
    simp [rlSet, replaceFirst]

theorem sensitiveHit_fst (a : String) (t k : Nat) :
    (sensitiveHit (hitsState a t k) a t).1 = decide (k + 1 ≤ sensitiveMax) := by
  cases k with
  | zero => rfl
  | succ j =>
    rw [hitsState_seq a t j, sensitiveHit, rlHit]
    have hlk : rlLookup [(a, t, j + 1)] a = some (t, j + 1) := by
      simp [rlLookup]
    rw [hlk]
    dsimp only
    have hw : windowMs = 900000 := rfl
    rw [if_neg (by rw [hw]; omega)]

/-- C8: the claim that creation, password verification, AND admin login are
each capped at 10 requests per 15-minute window per address fails on the
code: the admin-login route of src/routes/admin.js line 53 mounts no rate
limiter at all (nor does src/server.js mount one globally), so the 11th
rapid admin-login attempt from one address is processed normally (here: 401
invalid credentials), not RateLimited. -/
theorem admin_login_unlimited_c8_counterexample :
    (adminLoginSeq [] "1.2.3.4" 0 (some "admin") (some "hunter2") 10).1
      = .through .invalidCredentials
    ∧ (adminLoginSeq [] "1.2.3.4" 0 (some "admin") (some "hunter2") 10).1
      ≠ .rateLimited :=
  ⟨by decide, by decide⟩

/-- C8 (amended): creation and password verification are capped at 10
requests per 15-minute fixed window per client address — after 10 in-window
sensitive hits from an address the 11th create or verify request is
RateLimited, while any of the first 10 is served — but admin login is not
rate-limited: it passes through to the handler and leaves the limiter state
untouched whatever that state is. -/
theorem sensitive_rate_limit_amended_c8 :
    (∀ (a : String) (t : Nat) (s : Store) (b : ShortenBody)
        (file : Option IncomingFile) (salt : Nat) (sid storageTok baseUrl : String),
      (createWithLimiter (hitsState a t 10) a t s b file salt sid storageTok baseUrl).1
        = .rateLimited)
    ∧ (∀ (a : String) (t k : Nat), k < 10 →
        ∀ (s : Store) (b : ShortenBody) (file : Option IncomingFile) (salt : Nat)
          (sid storageTok baseUrl : String),
        (createWithLimiter (hitsState a t k) a t s b file salt sid storageTok baseUrl).1
          ≠ .rateLimited)
    ∧ (∀ (a : String) (t : Nat) (s : Store) (sid : String) (password : Option String),
      (verifyWithLimiter (hitsState a t 10) a t s sid password).1 = .rateLimited)
    ∧ (∀ (a : String) (t k : Nat), k < 10 →
        ∀ (s : Store) (sid : String) (password : Option String),
        (verifyWithLimiter (hitsState a t k) a t s sid password).1 ≠ .rateLimited)
    ∧ (∀ (rl : RLState) (admins : List AdminDoc) (a : String) (t : Nat)
        (username password : Option String),
      adminLoginApp rl admins a t username password
        = (.through (adminLoginRequest admins username password), rl)) := by
  have hful : ∀ (a : String) (t : Nat), (sensitiveHit (hitsState a t 10) a t).1 = false := by
    intro a t
    rw [sensitiveHit_fst]
    decide
  have hok : ∀ (a : String) (t k : Nat), k < 10 →
      (sensitiveHit (hitsState a t k) a t).1 = true := by
    intro a t k hk
    rw [sensitiveHit_fst]
    exact decide_eq_true (by simp [sensitiveMax]; omega)
  refine ⟨?_, ?_, ?_, ?_, fun rl admins a t u p => rfl⟩
  · intro a t s b file salt sid storageTok baseUrl
    rw [createWithLimiter]
    simp [hful a t]
  · intro a t k hk s b file salt sid storageTok baseUrl
    rw [createWithLimiter]
    simp [hok a t k hk]
  · intro a t s sid password
    rw [verifyWithLimiter]
    simp [hful a t]
  · intro a t k hk s sid password
    rw [verifyWithLimiter]
    simp [hok a t k hk]

/-- Witness for the amended C8 at a concrete address and window: the 11th
create and verify requests are throttled, the 10th is served, and an admin
login under a full limiter still reaches the handler. -/
theorem sensitive_rate_limit_amended_c8_witness :
    (createWithLimiter (hitsState "1.2.3.4" 0 10) "1.2.3.4" 0 ⟨[], []⟩
        ⟨some "abcd", some "hi", none⟩ none 0 "sid00001" "tok1" "http://h").1
      = .rateLimited
    ∧ (createWithLimiter (hitsState "1.2.3.4" 0 9) "1.2.3.4" 0 ⟨[], []⟩
        ⟨some "abcd", some "hi", none⟩ none 0 "sid00001" "tok1" "http://h").1
      ≠ .rateLimited
    ∧ (verifyWithLimiter (hitsState "1.2.3.4" 0 10) "1.2.3.4" 0 ⟨[], []⟩
        "sid00001" (some "abcd")).1 = .rateLimited
    ∧ adminLoginApp (hitsState "1.2.3.4" 0 10) [] "1.2.3.4" 0 (some "admin") (some "pw")
        = (.through (adminLoginRequest [] (some "admin") (some "pw")),
           hitsState "1.2.3.4" 0 10) :=
  ⟨sensitive_rate_limit_amended_c8.1 "1.2.3.4" 0 ⟨[], []⟩
      ⟨some "abcd", some "hi", none⟩ none 0 "sid00001" "tok1" "http://h",
   sensitive_rate_limit_amended_c8.2.1 "1.2.3.4" 0 9 (by decide) ⟨[], []⟩
      ⟨some "abcd", some "hi", none⟩ none 0 "sid00001" "tok1" "http://h",
   sensitive_rate_limit_amended_c8.2.2.1 "1.2.3.4" 0 ⟨[], []⟩ "sid00001" (some "abcd"),
   sensitive_rate_limit_amended_c8.2.2.2.2 (hitsState "1.2.3.4" 0 10) [] "1.2.3.4" 0
      (some "admin") (some "pw")⟩

theorem not_mem_removeKey (k : String) (l : List (String × JAtom)) :
    k ∉ (removeKey k l).map Prod.fst := by
  intro hmem
  obtain ⟨kv, hkv, hfst⟩ := List.mem_map.1 hmem
  have hkv2 : kv ∈ l.filter (fun kv => !(kv.1 == k)) := hkv
  have hfil := List.of_mem_filter hkv2
  simp at hfil
  exact hfil hfst

/-- C9: passwordHash is never serialized: every verify-route response body
carries only content fields, the admin list excludes the passwordHash path
from every returned drop, and the admin update reply strips passwordHash
from the document object — for every request, the passwordHash key appears
nowhere in any of these response bodies. -/
theorem passwordHash_never_serialized_c9 :
    (∀ (s : Store) (sid : String) (password : Option String),
      "passwordHash" ∉ bodyKeys (serializeVerify (verifyRequest s sid password)))
    ∧ (∀ (s : Store) (header : Option String) (validTokens : List String),
      "passwordHash" ∉ bodyKeys (serializeList (adminListRequest s header validTokens)))
    ∧ (∀ (s : Store) (header : Option String) (validTokens : List String)
        (id : Nat) (b : UpdateBody) (file : Option IncomingFile) (storageTok : String),
      "passwordHash" ∉ bodyKeys (serializeUpdate
        (adminUpdateRequest s header validTokens id b file storageTok).1)) := by
  have hver : ∀ r : VerifyResp, "passwordHash" ∉ bodyKeys (serializeVerify r) := by
    intro r
    cases r <;> simp [serializeVerify, errBody, bodyKeys, fieldKeys]
  have hlst : ∀ r : ListResp, "passwordHash" ∉ bodyKeys (serializeList r) := by
    intro r
    cases r with
    | listDenied m => simp [serializeList, errBody, bodyKeys, fieldKeys]
    | listOk urls =>
      simp only [serializeList, bodyKeys, fieldKeys, List.map_cons, List.map_nil,
        List.flatten_cons, List.flatten_nil, List.append_nil, List.nil_append]
      intro hmem
      simp only [List.mem_append, List.mem_cons, List.not_mem_nil] at hmem
      rcases hmem with h | h
      · simp at h
      · rw [List.map_map, List.mem_flatten] at h
        obtain ⟨ks, hks, hk⟩ := h
        obtain ⟨d, hd, hdk⟩ := List.mem_map.1 hks
        rw [← hdk] at hk
        exact not_mem_removeKey "passwordHash" (docFields d) hk
  have hupd : ∀ r : UpdateResp, "passwordHash" ∉ bodyKeys (serializeUpdate r) := by
    intro r
    cases r with
    | updateDenied m => simp [serializeUpdate, errBody, bodyKeys, fieldKeys]
    | updateNotFound => simp [serializeUpdate, errBody, bodyKeys, fieldKeys]
    | updateRejected m => simp [serializeUpdate, errBody, bodyKeys, fieldKeys]
    | updateOk d =>
      simp only [serializeUpdate, bodyKeys, fieldKeys, List.map_cons, List.map_nil,
        List.flatten_cons, List.flatten_nil, List.append_nil, List.nil_append]
      intro hmem
      simp only [List.mem_append, List.mem_cons, List.not_mem_nil] at hmem
      rcases hmem with h | h
      · simp at h
      · exact not_mem_removeKey "passwordHash" (docFields d) h
  exact ⟨fun s sid password => hver (verifyRequest s sid password),
    fun s header validTokens => hlst (adminListRequest s header validTokens),
    fun s header validTokens id b file storageTok =>
      hupd (adminUpdateRequest s header validTokens id b file storageTok).1⟩

end ProtectedData
